import Mathlib

/-!
Verification of the Audit Trail Subsystem of the brainsait-rcm repository.

The definitions below are a shallow embedding of:
* `services/audit-service/src/main.py`   (ingestion, hash chain, health, query)
* `services/audit-service/src/models.py` (event schema and validation)
* `services/audit-logger/logger.py`      (anomaly scanner)

Machine-level datetimes are modelled as opaque natural numbers; the external
SHA-256 digest is modelled by an uninterpreted computable function (no theorem
relies on cryptographic properties of the digest, only on the strings it
produces being passed around unchanged).
-/

/-- PyVal models the Python values that can appear in an audit event document:
strings, integers, booleans, None, datetime objects, lists and string-keyed
dicts.  A `datetime` carries an opaque tick count. -/
inductive PyVal where
  | pyStr (s : String)
  | pyInt (n : Int)
  | pyBool (b : Bool)
  | pyNone
  | pyDatetime (t : Nat)
  | pyList (xs : List PyVal)
  | pyDict (kvs : List (String × PyVal))

/-- Escape of a single character inside a JSON string literal (fragment used
by the audit documents: only the quote and backslash need escaping). -/
def jsonEscapeChar (c : Char) : String :=
  if c = '"' then "\\\"" else if c = '\\' then "\\\\" else String.singleton c

/-- Rendering of a JSON string literal, as json.dumps renders Python str. -/
def jsonQuote (s : String) : String :=
  "\"" ++ String.join (s.toList.map jsonEscapeChar) ++ "\""

/-- Lexicographic less-or-equal on character lists by code point. -/
def strLeChars : List Char → List Char → Bool
  | [], _ => true
  | _ :: _, [] => false
  | a :: as, b :: bs =>
      if a.toNat < b.toNat then true
      else if b.toNat < a.toNat then false
      else strLeChars as bs

/-- Lexicographic less-or-equal on strings, models Python string ordering. -/
def strLe (a b : String) : Bool := strLeChars a.toList b.toList

/-- Insertion of a string into a sorted list of strings. -/
def insertSorted (s : String) : List String → List String
  | [] => [s]
  | t :: ts => if strLe s t then s :: t :: ts else t :: insertSorted s ts

/-- Insertion sort on strings; models the key ordering of
json.dumps(..., sort_keys=True). -/
def sortStrings : List String → List String
  | [] => []
  | s :: ss => insertSorted s (sortStrings ss)

mutual

/-- Model of Python json.dumps(value, sort_keys=True) on the PyVal fragment:
serialization fails with a TypeError exactly on datetime objects, which have
no default JSON encoding.  Dict entries are rendered and then ordered by key
(the rendered entry string starts with the quoted key, so sorting rendered
entries by string order agrees with sorting by key for the keys in use). -/
def json_dumps : PyVal → Except String String
  | .pyStr s => .ok (jsonQuote s)
  | .pyInt n => .ok (toString n)
  | .pyBool b => .ok (if b then "true" else "false")
  | .pyNone => .ok "null"
  | .pyDatetime _ => .error "Object of type datetime is not JSON serializable"
  | .pyList xs =>
      match dumpsList xs with
      | .error e => .error e
      | .ok parts => .ok ("[" ++ String.intercalate ", " parts ++ "]")
  | .pyDict kvs =>
      match dumpsEntries kvs with
      | .error e => .error e
      | .ok parts =>
          .ok ("\x7b" ++ String.intercalate ", " (sortStrings parts) ++ "\x7d")

/-- Serialization of the elements of a Python list, left to right. -/
def dumpsList : List PyVal → Except String (List String)
  | [] => .ok []
  | x :: xs =>
      match json_dumps x with
      | .error e => .error e
      | .ok s =>
          match dumpsList xs with
          | .error e => .error e
          | .ok rest => .ok (s :: rest)

/-- Serialization of the entries of a Python dict as "key": value strings. -/
def dumpsEntries : List (String × PyVal) → Except String (List String)
  | [] => .ok []
  | (k, v) :: kvs =>
      match json_dumps v with
      | .error e => .error e
      | .ok s =>
          match dumpsEntries kvs with
          | .error e => .error e
          | .ok rest => .ok ((jsonQuote k ++ ": " ++ s) :: rest)

end

mutual

/-- A PyVal is JSON-serializable when no datetime object is reachable in it. -/
def jsonSerializable : PyVal → Bool
  | .pyStr _ => true
  | .pyInt _ => true
  | .pyBool _ => true
  | .pyNone => true
  | .pyDatetime _ => false
  | .pyList xs => serializableList xs
  | .pyDict kvs => serializableEntries kvs

/-- All elements of a list are JSON-serializable. -/
def serializableList : List PyVal → Bool
  | [] => true
  | x :: xs => jsonSerializable x && serializableList xs

/-- All values of a dict are JSON-serializable. -/
def serializableEntries : List (String × PyVal) → Bool
  | [] => true
  | (_, v) :: kvs => jsonSerializable v && serializableEntries kvs

end


/-- Computable stand-in for hashlib.sha256(...).hexdigest(): an uninterpreted
deterministic function from strings to hex strings.  No theorem in this file
relies on any property of the digest beyond determinism. -/
def sha256hex (s : String) : String :=
  String.mk (Nat.toDigits 16
    (s.foldl (fun h c => (h * 31 + c.toNat) % 18446744073709551616) 5381))

/-- Embedding of compute_event_hash (main.py lines 112-115): serialize the
event document with sorted keys, append the previous hash, and digest.  The
TypeError raised by json.dumps on non-serializable values is modelled by the
error case. -/
def compute_event_hash (event_data : PyVal) (previous_hash : String) :
    Except String String :=
  match json_dumps event_data with
  | .error e => .error e
  | .ok s => .ok ("sha256:" ++ sha256hex (s ++ previous_hash))

/-- Embedding of AuditEventType (models.py lines 12-24), a closed enumeration. -/
inductive AuditEventType where
  | CLAIM_CREATED | CLAIM_VALIDATED | CLAIM_SUBMITTED | CLAIM_APPROVED | CLAIM_DENIED
  | USER_LOGIN | USER_LOGOUT | PERMISSION_CHANGED | DATA_ACCESSED | DATA_MODIFIED
  | SYSTEM_ERROR
deriving DecidableEq

/-- String value of an AuditEventType member, as the str-enum serializes. -/
def AuditEventType.value : AuditEventType → String
  | .CLAIM_CREATED => "CLAIM_CREATED"
  | .CLAIM_VALIDATED => "CLAIM_VALIDATED"
  | .CLAIM_SUBMITTED => "CLAIM_SUBMITTED"
  | .CLAIM_APPROVED => "CLAIM_APPROVED"
  | .CLAIM_DENIED => "CLAIM_DENIED"
  | .USER_LOGIN => "USER_LOGIN"
  | .USER_LOGOUT => "USER_LOGOUT"
  | .PERMISSION_CHANGED => "PERMISSION_CHANGED"
  | .DATA_ACCESSED => "DATA_ACCESSED"
  | .DATA_MODIFIED => "DATA_MODIFIED"
  | .SYSTEM_ERROR => "SYSTEM_ERROR"

/-- Coercion of a raw string into the AuditEventType enumeration, as pydantic
performs for an enum-typed field; out-of-enumeration strings are rejected. -/
def AuditEventType.parse (s : String) : Option AuditEventType :=
  if s = "CLAIM_CREATED" then some .CLAIM_CREATED
  else if s = "CLAIM_VALIDATED" then some .CLAIM_VALIDATED
  else if s = "CLAIM_SUBMITTED" then some .CLAIM_SUBMITTED
  else if s = "CLAIM_APPROVED" then some .CLAIM_APPROVED
  else if s = "CLAIM_DENIED" then some .CLAIM_DENIED
  else if s = "USER_LOGIN" then some .USER_LOGIN
  else if s = "USER_LOGOUT" then some .USER_LOGOUT
  else if s = "PERMISSION_CHANGED" then some .PERMISSION_CHANGED
  else if s = "DATA_ACCESSED" then some .DATA_ACCESSED
  else if s = "DATA_MODIFIED" then some .DATA_MODIFIED
  else if s = "SYSTEM_ERROR" then some .SYSTEM_ERROR
  else none

/-- Embedding of AuditAction (models.py lines 27-33). -/
inductive AuditAction where
  | CREATE | READ | UPDATE | DELETE | EXECUTE
deriving DecidableEq

/-- String value of an AuditAction member. -/
def AuditAction.value : AuditAction → String
  | .CREATE => "CREATE"
  | .READ => "READ"
  | .UPDATE => "UPDATE"
  | .DELETE => "DELETE"
  | .EXECUTE => "EXECUTE"

/-- Coercion of a raw string into the AuditAction enumeration. -/
def AuditAction.parse (s : String) : Option AuditAction :=
  if s = "CREATE" then some .CREATE
  else if s = "READ" then some .READ
  else if s = "UPDATE" then some .UPDATE
  else if s = "DELETE" then some .DELETE
  else if s = "EXECUTE" then some .EXECUTE
  else none

/-- Embedding of AuditOutcome (models.py lines 36-40). -/
inductive AuditOutcome where
  | SUCCESS | FAILURE | PARTIAL_
deriving DecidableEq

/-- String value of an AuditOutcome member (PARTIAL_ models the member named
after the partial outcome). -/
def AuditOutcome.value : AuditOutcome → String
  | .SUCCESS => "SUCCESS"
  | .FAILURE => "FAILURE"
  | .PARTIAL_ => "PARTIAL"

/-- Coercion of a raw string into the AuditOutcome enumeration. -/
def AuditOutcome.parse (s : String) : Option AuditOutcome :=
  if s = "SUCCESS" then some .SUCCESS
  else if s = "FAILURE" then some .FAILURE
  else if s = "PARTIAL" then some .PARTIAL_
  else none

/-- Embedding of Actor (models.py lines 43-48): userId and username are plain
str fields with no emptiness constraint; role and ipAddress are optional. -/
structure Actor where
  userId : String
  username : String
  role : Option String
  ipAddress : Option String
deriving DecidableEq

/-- Embedding of Resource (models.py lines 51-55). -/
structure Resource where
  resourceType : String
  resourceId : String
  branchId : Option String
deriving DecidableEq

/-- Embedding of a validated AuditLogRequest (models.py lines 58-66).
Timestamps are opaque datetime ticks. -/
structure AuditLogRequest where
  eventType : AuditEventType
  actor : Actor
  resource : Option Resource
  action : AuditAction
  outcome : AuditOutcome
  metadata : Option (List (String × PyVal))
  timestamp : Option Nat

/-- Raw (pre-validation) actor payload as submitted by a caller. -/
structure RawActor where
  userId : String
  username : String
  role : Option String
  ipAddress : Option String

/-- Raw (pre-validation) audit log request: the three enum fields arrive as
free strings and must be coerced into the closed enumerations. -/
structure RawAuditLogRequest where
  eventType : String
  actor : RawActor
  resource : Option Resource
  action : String
  outcome : String
  metadata : Option (List (String × PyVal))
  timestamp : Option Nat

/-- Embedding of the pydantic validation of AuditLogRequest: eventType, action
and outcome must be members of their enumerations; actor.userId and
actor.username are plain str fields, so any string - including the empty
string - is accepted for them. -/
def validate_audit_log_request (r : RawAuditLogRequest) :
    Except String AuditLogRequest :=
  match AuditEventType.parse r.eventType with
  | none => .error ("value is not a valid enumeration member: " ++ r.eventType)
  | some et =>
      match AuditAction.parse r.action with
      | none => .error ("value is not a valid enumeration member: " ++ r.action)
      | some ac =>
          match AuditOutcome.parse r.outcome with
          | none => .error ("value is not a valid enumeration member: " ++ r.outcome)
          | some oc =>
              .ok { eventType := et,
                    actor := { userId := r.actor.userId, username := r.actor.username,
                               role := r.actor.role, ipAddress := r.actor.ipAddress },
                    resource := r.resource,
                    action := ac,
                    outcome := oc,
                    metadata := r.metadata,
                    timestamp := r.timestamp }

/-- Rendering of an optional string as a Python value (None or str). -/
def optStr : Option String → PyVal
  | none => .pyNone
  | some s => .pyStr s

/-- Dict produced by actor.dict() in main.py line 164. -/
def Actor.toPyVal (a : Actor) : PyVal :=
  .pyDict [("userId", .pyStr a.userId), ("username", .pyStr a.username),
           ("role", optStr a.role), ("ipAddress", optStr a.ipAddress)]

/-- Dict produced by resource.dict() in main.py line 165. -/
def Resource.toPyVal (r : Resource) : PyVal :=
  .pyDict [("resourceType", .pyStr r.resourceType), ("resourceId", .pyStr r.resourceId),
           ("branchId", optStr r.branchId)]

/-- Audit id assigned at ingestion time (main.py line 156). -/
def audit_id_for (nowT : Nat) : String := "audit_" ++ toString nowT

/-- Event id assigned at ingestion time (main.py line 157). -/
def event_id_for (nowT : Nat) : String := "evt_" ++ toString nowT

/-- Embedding of the event document prepared in main.py lines 160-170.  The
timestamp entry is always a datetime object: the caller's datetime when given,
otherwise datetime.utcnow(). -/
def build_event_data (req : AuditLogRequest) (nowT : Nat) : PyVal :=
  .pyDict [
    ("audit_id", .pyStr (audit_id_for nowT)),
    ("event_id", .pyStr (event_id_for nowT)),
    ("event_type", .pyStr req.eventType.value),
    ("actor", req.actor.toPyVal),
    ("resource", match req.resource with | none => PyVal.pyNone | some r => r.toPyVal),
    ("action", .pyStr req.action.value),
    ("outcome", .pyStr req.outcome.value),
    ("metadata", .pyDict (req.metadata.getD [])),
    ("timestamp", .pyDatetime (req.timestamp.getD nowT))
  ]

/-- Stored ledger record: the business document plus the integrity block
added in main.py lines 174-177. -/
structure StoredEvent where
  event_data : PyVal
  hash : String
  previous_hash : String

/-- Chain state of the service: the append-only collection plus the global
last_hash variable (main.py line 49). -/
structure ChainState where
  ledger : List StoredEvent
  last_hash : String

/-- State at first startup against an empty store. -/
def initialChainState : ChainState := { ledger := [], last_hash := "genesis" }

/-- HTTP-level error result (HTTPException status code and detail). -/
structure ErrResp where
  status_code : Nat
  detail : String
deriving DecidableEq

/-- Integrity block of the ingestion receipt (models.py lines 69-72). -/
structure IntegrityInfo where
  hash : String
  previousHash : String
deriving DecidableEq

/-- Receipt returned by the ingestion endpoint (models.py lines 75-81). -/
structure AuditLogResponse where
  auditId : String
  eventId : String
  logged : Bool
  integrity : IntegrityInfo
deriving DecidableEq

/-- External-world outcomes of one ingestion call: whether the MongoDB
insert_one succeeds, and whether a Kafka producer is configured.  The Kafka
send (kafka_producer.py lines 63-95) swallows every exception internally, so
it can affect neither the response nor the chain state and carries no
failure flag here. -/
structure IngestEnv where
  insertOk : Bool
  kafkaEnabled : Bool
deriving DecidableEq

/-- Embedding of the accepted-hash tail of log_audit_event (main.py lines
174-204): attach the integrity block, insert into the store, advance the
global last_hash, publish best-effort, and build the response.  The response's
integrity.previousHash reads the global last_hash at lines 200-203, after line
181 has already advanced it to current_hash. -/
def append_and_respond (env : IngestEnv) (nowT : Nat) (event_data : PyVal)
    (current_hash : String) (st : ChainState) :
    Except ErrResp AuditLogResponse × ChainState :=
  if env.insertOk then
    let stored : StoredEvent :=
      { event_data := event_data, hash := current_hash, previous_hash := st.last_hash }
    let st' : ChainState := { ledger := st.ledger ++ [stored], last_hash := current_hash }
    (.ok { auditId := audit_id_for nowT, eventId := event_id_for nowT, logged := true,
           integrity := { hash := current_hash, previousHash := st'.last_hash } }, st')
  else
    (.error { status_code := 500, detail := "Audit logging failed: insert failed" }, st)

/-- Embedding of the ingestion endpoint log_audit_event (main.py lines
141-211): build the event document, compute the chained hash against the
current tip, then append and respond; any exception is caught and surfaced as
an HTTP 500 with the chain state unchanged. -/
def log_audit_event (env : IngestEnv) (req : AuditLogRequest) (nowT : Nat)
    (st : ChainState) : Except ErrResp AuditLogResponse × ChainState :=
  let event_data := build_event_data req nowT
  match compute_event_hash event_data st.last_hash with
  | .error e => (.error { status_code := 500, detail := "Audit logging failed: " ++ e }, st)
  | .ok current_hash => append_and_respond env nowT event_data current_hash st

/-- Sequential execution of a list of ingestion calls (one at a time, no
interleaving), threading the chain state. -/
def run_ingestion : List (IngestEnv × AuditLogRequest × Nat) → ChainState → ChainState
  | [], st => st
  | (env, req, t) :: rest, st => run_ingestion rest (log_audit_event env req t st).2

/-- Chain check relative to an expected predecessor hash: each event's
previous_hash equals the running predecessor hash. -/
def chainFrom (h : String) : List StoredEvent → Bool
  | [] => true
  | e :: rest => (e.previous_hash == h) && chainFrom e.hash rest

/-- Chain integrity of a ledger: the first event links to the genesis
sentinel and every later event links to its immediate predecessor's hash. -/
def chainOk (ledger : List StoredEvent) : Bool := chainFrom "genesis" ledger

/-- Hash of the last event of a ledger, relative to a starting hash. -/
def tipFrom (h : String) : List StoredEvent → String
  | [] => h
  | e :: rest => tipFrom e.hash rest


/-- Invariant of the ingestion service: the ledger is a well-linked chain
starting at the genesis sentinel, and the global last_hash equals the hash of
the most recently stored event (or the sentinel on an empty ledger). -/
def chainInv (st : ChainState) : Prop :=
  chainFrom "genesis" st.ledger = true ∧ st.last_hash = tipFrom "genesis" st.ledger


/-- Health report produced by the /health endpoint: overall status, the
mongodb connectivity field, and the kafka connectivity field (present only
when a producer is configured). -/
structure HealthReport where
  status : String
  mongodb : String
  kafka : Option String
deriving DecidableEq

/-- Embedding of health_check (main.py lines 117-139): the report starts as
"healthy"; a failed MongoDB ping flips it to "unhealthy"; a configured Kafka
producer only adds a kafka connectivity field and never changes the overall
status. -/
def health_check (mongoUp : Bool) (kafkaConnected : Option Bool) : HealthReport :=
  { status := if mongoUp then "healthy" else "unhealthy",
    mongodb := if mongoUp then "connected" else "disconnected",
    kafka := kafkaConnected.map (fun c => if c then "connected" else "disconnected") }

/-- Observable condition of the event store at service startup: either
reachable with its current contents, or unreachable (its contents exist but
cannot be read). -/
inductive StoreStatus where
  | reachable (events : List StoredEvent)
  | unreachable (events : List StoredEvent)

/-- Embedding of the startup bootstrap of the chain tip (main.py lines
54-75): on a reachable store the tip is loaded from the most recently written
event (or stays "genesis" on an empty store); when the connection fails the
exception is caught, merely logged, and the service continues with the
initial value "genesis". -/
def startup_last_hash : StoreStatus → String
  | .reachable events =>
      match events.getLast? with
      | some e => e.hash
      | none => "genesis"
  | .unreachable _ => "genesis"

/-- Chain state the service runs with after startup: the in-memory tip from
the bootstrap above, over whatever the store holds.  The service serves
requests regardless of whether the bootstrap read succeeded. -/
def startup_state (store : StoreStatus) : ChainState :=
  match store with
  | .reachable events => { ledger := events, last_hash := startup_last_hash store }
  | .unreachable events => { ledger := events, last_hash := startup_last_hash store }

/-- Replacement of every Z character by a UTC offset, modelling the
start_date.replace('Z', '+00:00') preprocessing in main.py lines 244-246. -/
def replace_Z (s : String) : String :=
  String.join (s.toList.map (fun c => if c = 'Z' then "+00:00" else String.singleton c))

/-- Decimal digit test. -/
def isDigit (c : Char) : Bool := '0'.toNat ≤ c.toNat && c.toNat ≤ '9'.toNat

/-- Numeric value of a digit character. -/
def digitVal (c : Char) : Nat := c.toNat - '0'.toNat

/-- Modelled fragment of Python datetime.fromisoformat: plain calendar dates
of the form YYYY-MM-DD with month 1-12 and day 1-31, encoded as the number
YYYYMMDD; every string outside this fragment is rejected.  All date strings
appearing in theorems below lie inside the fragment, where this model and the
stdlib agree on acceptance. -/
def fromisoformat (s : String) : Option Nat :=
  match s.toList with
  | [y1, y2, y3, y4, d1, m1, m2, d2, dd1, dd2] =>
      if isDigit y1 && isDigit y2 && isDigit y3 && isDigit y4 &&
         (d1 = '-') && isDigit m1 && isDigit m2 && (d2 = '-') &&
         isDigit dd1 && isDigit dd2 then
        let year := ((digitVal y1 * 10 + digitVal y2) * 10 + digitVal y3) * 10 + digitVal y4
        let month := digitVal m1 * 10 + digitVal m2
        let day := digitVal dd1 * 10 + digitVal dd2
        if 1 ≤ month && month ≤ 12 && 1 ≤ day && day ≤ 31 then
          some ((year * 100 + month) * 100 + day)
        else none
      else none
  | _ => none

/-- Date filter parsing as performed inline in the query endpoint: replace
the Z suffix and parse; None models the ValueError raised on a malformed
string. -/
def parseDateFilter (s : String) : Option Nat :=
  fromisoformat (replace_Z s)

/-- Query parameters of GET /api/v1/audit/query (main.py lines 214-222). -/
structure AuditQueryParams where
  actor_id : Option String
  resource_type : Option String
  resource_id : Option String
  event_type : Option String
  start_date : Option String
  end_date : Option String
  page : Nat
  limit : Nat

/-- Lookup of a key in a Python dict value. -/
def pyLookup (v : PyVal) (k : String) : Option PyVal :=
  match v with
  | .pyDict kvs =>
      match kvs.find? (fun kv => kv.1 == k) with
      | some kv => some kv.2
      | none => none
  | _ => none

/-- String stored under a key of a dict value, when present. -/
def pyStrAt (v : PyVal) (k : String) : Option String :=
  match pyLookup v k with
  | some (.pyStr s) => some s
  | _ => none

/-- String stored under a dotted path through two dicts, when present. -/
def pyStrAt2 (v : PyVal) (k1 k2 : String) : Option String :=
  match pyLookup v k1 with
  | some inner => pyStrAt inner k2
  | none => none

/-- Datetime ticks stored under the timestamp key of a document. -/
def pyTimeAt (v : PyVal) : Option Nat :=
  match pyLookup v "timestamp" with
  | some (.pyDatetime t) => some t
  | _ => none

/-- Mongo-filter match of one stored document against the query filter built
in main.py lines 231-246. -/
def eventMatchesFilter (p : AuditQueryParams) (lo hi : Option Nat)
    (e : StoredEvent) : Bool :=
  (match p.actor_id with
   | none => true
   | some a => pyStrAt2 e.event_data "actor" "userId" == some a) &&
  (match p.resource_type with
   | none => true
   | some rt => pyStrAt2 e.event_data "resource" "resourceType" == some rt) &&
  (match p.resource_id with
   | none => true
   | some ri => pyStrAt2 e.event_data "resource" "resourceId" == some ri) &&
  (match p.event_type with
   | none => true
   | some et => pyStrAt e.event_data "event_type" == some et) &&
  (match lo with
   | none => true
   | some d => match pyTimeAt e.event_data with
               | some t => d ≤ t
               | none => false) &&
  (match hi with
   | none => true
   | some d => match pyTimeAt e.event_data with
               | some t => t ≤ d
               | none => false)

/-- Insertion into a list kept sorted by descending timestamp. -/
def insertByTimeDesc (e : StoredEvent) : List StoredEvent → List StoredEvent
  | [] => [e]
  | x :: xs =>
      if (pyTimeAt x.event_data).getD 0 ≤ (pyTimeAt e.event_data).getD 0 then
        e :: x :: xs
      else x :: insertByTimeDesc e xs

/-- Sort by descending timestamp, modelling sort("timestamp", -1). -/
def sortByTimeDesc : List StoredEvent → List StoredEvent
  | [] => []
  | e :: es => insertByTimeDesc e (sortByTimeDesc es)

/-- Pagination block of the query response (main.py lines 273-278). -/
structure Pagination where
  page : Nat
  limit : Nat
  total : Nat
  totalPages : Nat
deriving DecidableEq

/-- Response of the query endpoint: the matching page of events plus the
pagination block. -/
structure AuditQueryResponse where
  events : List StoredEvent
  pagination : Pagination

/-- Store read of the query endpoint: count_documents plus the paginated,
descending-by-timestamp find with skip and limit. -/
def run_query (ledger : List StoredEvent) (p : AuditQueryParams)
    (lo hi : Option Nat) : AuditQueryResponse :=
  let matching := ledger.filter (eventMatchesFilter p lo hi)
  let total := matching.length
  let sorted := sortByTimeDesc matching
  let skip := (p.page - 1) * p.limit
  { events := (sorted.drop skip).take p.limit,
    pagination := { page := p.page, limit := p.limit, total := total,
                    totalPages := (total + p.limit - 1) / p.limit } }

/-- Continuation of query_audit_logs after the start_date bound is resolved:
parse the optional end_date bound and run the store read. -/
def query_audit_logs_after (ledger : List StoredEvent) (p : AuditQueryParams)
    (lo : Option Nat) : Except ErrResp AuditQueryResponse :=
  match p.end_date with
  | some s =>
      match parseDateFilter s with
      | none => .error { status_code := 500,
                         detail := "Query failed: Invalid isoformat string: " ++ s }
      | some hi => .ok (run_query ledger p lo (some hi))
  | none => .ok (run_query ledger p lo none)

/-- Embedding of query_audit_logs (main.py lines 213-286): parse the optional
date bounds (a malformed date raises ValueError, caught by the blanket except
which surfaces HTTP 500 "Query failed"), filter, count, sort descending by
timestamp, paginate. -/
def query_audit_logs (ledger : List StoredEvent) (p : AuditQueryParams) :
    Except ErrResp AuditQueryResponse :=
  match p.start_date with
  | some s =>
      match parseDateFilter s with
      | none => .error { status_code := 500,
                         detail := "Query failed: Invalid isoformat string: " ++ s }
      | some lo => query_audit_logs_after ledger p (some lo)
  | none => query_audit_logs_after ledger p none


/-- Document of the audit_log collection written by the HIPAA audit logger
(logger.py AuditEvent): the fields read by the anomaly scanner. -/
structure LogDoc where
  timestamp : Nat
  event_type : String
  user_id : String
  username : String
  status : String
  ip_address : Option String

/-- Suspicious-activity finding appended by detect_suspicious_activity;
count holds the event count or the distinct-IP count depending on the type,
and user_id is present only for per-actor findings. -/
structure Finding where
  type : String
  severity : String
  count : Nat
  user_id : Option String
  description : String
deriving DecidableEq

/-- Mongo query operand: a literal number or a nested operator document. -/
inductive MongoQueryVal where
  | num (n : Nat)
  | doc (fields : List (String × MongoQueryVal))

/-- Server-side parsing of the operand of the $size query operator: MongoDB
accepts only a literal number and rejects any document operand (ranges are
not supported) with a BadValue parse error. -/
def parseSizeArg : MongoQueryVal → Except String Nat
  | .num n => .ok n
  | .doc _ => .error "Failed to parse $size. Expected a number"

/-- The $size operand the scanner's pipeline passes (logger.py line 277):
the operator document greater-than-3 rather than a literal number. -/
def multiIpSizeArg : MongoQueryVal := .doc [("$gt", .num 3)]

/-- Seconds in the trailing 24-hour window (timedelta(days=1)). -/
def day_seconds : Nat := 86400

/-- Distinct values in first-seen order, modelling the $addToSet accumulator. -/
def addToSet {α : Type} [BEq α] (xs : List α) : List α :=
  xs.foldl (fun acc x => if acc.contains x then acc else acc ++ [x]) []

/-- Embedding of count_documents over the audit_log collection. -/
def count_documents (docs : List LogDoc) (p : LogDoc → Bool) : Nat :=
  (docs.filter p).length

/-- Embedding of the multi-IP aggregation pipeline (logger.py lines 270-280):
window filter, group by user_id collecting the set of ip_address values, then
the final match stage.  That stage's $size operand is an operator document,
which the server rejects while parsing the pipeline, so the aggregate call
fails for every collection state. -/
def multi_ip_aggregate (docs : List LogDoc) (now : Nat) :
    Except String (List (String × List (Option String))) :=
  match parseSizeArg multiIpSizeArg with
  | .error e => .error e
  | .ok n =>
      let windowDocs := docs.filter (fun d => now - day_seconds ≤ d.timestamp)
      let users := addToSet (windowDocs.map (fun d => d.user_id))
      let groups := users.map (fun u =>
        (u, addToSet ((windowDocs.filter (fun d => d.user_id == u)).map
              (fun d => d.ip_address))))
      .ok (groups.filter (fun g => n < g.2.length))

/-- Embedding of detect_suspicious_activity (logger.py lines 232-291): count
failed logins and exports over the trailing window, then run the multi-IP
aggregation.  The aggregation's server-side failure propagates out of the
method (there is no try/except around it), discarding the findings already
collected. -/
def detect_suspicious_activity (docs : List LogDoc) (now : Nat) :
    Except String (List Finding) :=
  let yesterday := now - day_seconds
  let failed_logins := count_documents docs (fun d =>
    yesterday ≤ d.timestamp && d.event_type == "LOGIN" && d.status == "FAILURE")
  let s1 : List Finding :=
    if 5 < failed_logins then
      [{ type := "MULTIPLE_FAILED_LOGINS", severity := "HIGH", count := failed_logins,
         user_id := none,
         description := toString failed_logins ++ " failed login attempts in last 24 hours" }]
    else []
  let exports := count_documents docs (fun d =>
    yesterday ≤ d.timestamp && d.event_type == "EXPORT")
  let s2 : List Finding :=
    if 20 < exports then
      s1 ++ [{ type := "EXCESSIVE_EXPORTS", severity := "MEDIUM", count := exports,
               user_id := none,
               description := toString exports ++ " data exports in last 24 hours" }]
    else s1
  match multi_ip_aggregate docs now with
  | .error e => .error e
  | .ok groups =>
      .ok (s2 ++ groups.map (fun g =>
        { type := "MULTIPLE_IP_ADDRESSES", severity := "MEDIUM", count := g.2.length,
          user_id := some g.1,
          description := "User accessed from " ++ toString g.2.length ++ " different IPs" }))

/-- Sample validated ingestion request used as a concrete input in theorems. -/
def sampleRequest : AuditLogRequest :=
  { eventType := .USER_LOGIN,
    actor := { userId := "u1", username := "alice", role := none, ipAddress := none },
    resource := none, action := .EXECUTE, outcome := .SUCCESS,
    metadata := none, timestamp := none }

/-- Sample opaque business document used as a concrete input in theorems. -/
def samplePayload : PyVal := .pyStr "payload"

/-- Prior ledger event used in the startup scenarios. -/
def priorEvent : StoredEvent :=
  { event_data := .pyStr "prior", hash := "sha256:aaa", previous_hash := "genesis" }

/-- Raw request whose actor fields are empty strings. -/
def emptyActorRaw : RawAuditLogRequest :=
  { eventType := "USER_LOGIN",
    actor := { userId := "", username := "", role := none, ipAddress := none },
    resource := none, action := "EXECUTE", outcome := "SUCCESS",
    metadata := none, timestamp := none }

/-- Query parameters carrying a malformed start_date filter. -/
def badDateParams : AuditQueryParams :=
  { actor_id := none, resource_type := none, resource_id := none, event_type := none,
    start_date := some "not-a-date", end_date := none, page := 1, limit := 50 }

/-- Query parameters whose only malformed filter is the end_date (the
start_date is a well-formed calendar date). -/
def badEndDateParams : AuditQueryParams :=
  { actor_id := none, resource_type := none, resource_id := none, event_type := none,
    start_date := some "2024-01-15", end_date := some "not-a-date", page := 1, limit := 50 }

/-- Collection state in which actor U1 reaches the store from four distinct
IP addresses inside the trailing window. -/
def multiIpDocs : List LogDoc :=
  [ { timestamp := 1000, event_type := "ACCESS", user_id := "U1", username := "u",
      status := "SUCCESS", ip_address := some "10.0.0.1" },
    { timestamp := 1001, event_type := "ACCESS", user_id := "U1", username := "u",
      status := "SUCCESS", ip_address := some "10.0.0.2" },
    { timestamp := 1002, event_type := "ACCESS", user_id := "U1", username := "u",
      status := "SUCCESS", ip_address := some "10.0.0.3" },
    { timestamp := 1003, event_type := "ACCESS", user_id := "U1", username := "u",
      status := "SUCCESS", ip_address := some "10.0.0.4" } ]

/- ===================== THEOREMS ===================== -/

/-- isOk on a success result is true. -/
theorem except_isOk_ok {α β : Type} (a : α) : (Except.ok a : Except β α).isOk = true := rfl

/-- isOk on an error result is false. -/
theorem except_isOk_error {α β : Type} (e : β) :
    (Except.error e : Except β α).isOk = false := rfl

mutual

/-- Serialization succeeds exactly on JSON-serializable values. -/
theorem json_dumps_isOk : (v : PyVal) → (json_dumps v).isOk = jsonSerializable v
  | .pyStr _ => rfl
  | .pyInt _ => rfl
  | .pyBool _ => rfl
  | .pyNone => rfl
  | .pyDatetime _ => rfl
  | .pyList xs => by
      have ih := dumpsList_isOk xs
      simp only [json_dumps, jsonSerializable]
      cases h : dumpsList xs with
      | error e => rw [h, except_isOk_error] at ih; rw [except_isOk_error]; exact ih
      | ok parts => rw [h, except_isOk_ok] at ih; rw [except_isOk_ok]; exact ih
  | .pyDict kvs => by
      have ih := dumpsEntries_isOk kvs
      simp only [json_dumps, jsonSerializable]
      cases h : dumpsEntries kvs with
      | error e => rw [h, except_isOk_error] at ih; rw [except_isOk_error]; exact ih
      | ok parts => rw [h, except_isOk_ok] at ih; rw [except_isOk_ok]; exact ih

/-- List serialization succeeds exactly when all elements are serializable. -/
theorem dumpsList_isOk : (xs : List PyVal) → (dumpsList xs).isOk = serializableList xs
  | [] => rfl
  | x :: xs => by
      have ih1 := json_dumps_isOk x
      have ih2 := dumpsList_isOk xs
      simp only [dumpsList, serializableList]
      cases h1 : json_dumps x with
      | error e =>
          rw [h1, except_isOk_error] at ih1
          rw [except_isOk_error, ← ih1, Bool.false_and]
      | ok s =>
          rw [h1, except_isOk_ok] at ih1
          rw [← ih1, Bool.true_and]
          cases h2 : dumpsList xs with
          | error e => rw [h2, except_isOk_error] at ih2; rw [except_isOk_error]; exact ih2
          | ok rest => rw [h2, except_isOk_ok] at ih2; rw [except_isOk_ok]; exact ih2

/-- Entry serialization succeeds exactly when all values are serializable. -/
theorem dumpsEntries_isOk :
    (kvs : List (String × PyVal)) → (dumpsEntries kvs).isOk = serializableEntries kvs
  | [] => rfl
  | (k, v) :: kvs => by
      have ih1 := json_dumps_isOk v
      have ih2 := dumpsEntries_isOk kvs
      simp only [dumpsEntries, serializableEntries]
      cases h1 : json_dumps v with
      | error e =>
          rw [h1, except_isOk_error] at ih1
          rw [except_isOk_error, ← ih1, Bool.false_and]
      | ok s =>
          rw [h1, except_isOk_ok] at ih1
          rw [← ih1, Bool.true_and]
          cases h2 : dumpsEntries kvs with
          | error e => rw [h2, except_isOk_error] at ih2; rw [except_isOk_error]; exact ih2
          | ok rest => rw [h2, except_isOk_ok] at ih2; rw [except_isOk_ok]; exact ih2

end

/-- Appending one event to a chained ledger: the result is chained iff the
ledger was chained and the new event links to the current tip. -/
theorem chainFrom_append (h : String) (l : List StoredEvent) (e : StoredEvent) :
    chainFrom h (l ++ [e]) = (chainFrom h l && (e.previous_hash == tipFrom h l)) := by
  induction l generalizing h with
  | nil => simp [chainFrom, tipFrom]
  | cons x xs ih => simp [chainFrom, tipFrom, ih, Bool.and_assoc]

/-- The tip after appending an event is that event's hash. -/
theorem tipFrom_append (h : String) (l : List StoredEvent) (e : StoredEvent) :
    tipFrom h (l ++ [e]) = e.hash := by
  induction l generalizing h with
  | nil => rfl
  | cons x xs ih => simp [tipFrom, ih]

/-- One ingestion call preserves the chain invariant: on any error the state
is unchanged, and on acceptance the stored event links to the previous tip
while the tip advances to the new hash. -/
theorem log_audit_event_preserves_chainInv (env : IngestEnv) (req : AuditLogRequest)
    (nowT : Nat) (st : ChainState) (hInv : chainInv st) :
    chainInv (log_audit_event env req nowT st).2 := by
  simp only [log_audit_event]
  cases hc : compute_event_hash (build_event_data req nowT) st.last_hash with
  | error e => exact hInv
  | ok current =>
      simp only [append_and_respond]
      cases hins : env.insertOk with
      | false => simpa using hInv
      | true =>
          obtain ⟨h1, h2⟩ := hInv
          simp only [if_true]
          refine ⟨?_, ?_⟩
          · rw [chainFrom_append, h1, Bool.true_and, ← h2]
            simp
          · rw [tipFrom_append]

/-- Sequential ingestion preserves the chain invariant. -/
theorem run_ingestion_preserves_chainInv
    (calls : List (IngestEnv × AuditLogRequest × Nat)) (st : ChainState)
    (hInv : chainInv st) : chainInv (run_ingestion calls st) := by
  induction calls generalizing st with
  | nil => exact hInv
  | cons c rest ih =>
      obtain ⟨env, req, t⟩ := c
      exact ih _ (log_audit_event_preserves_chainInv env req t st hInv)

/-- Hash computation succeeds exactly on serializable documents. -/
theorem compute_event_hash_isOk (v : PyVal) (p : String) :
    (compute_event_hash v p).isOk = jsonSerializable v := by
  unfold compute_event_hash
  cases h : json_dumps v with
  | error e =>
      have hs := json_dumps_isOk v
      rw [h] at hs
      rw [except_isOk_error] at hs ⊢
      exact hs
  | ok s =>
      have hs := json_dumps_isOk v
      rw [h] at hs
      rw [except_isOk_ok] at hs ⊢
      exact hs

/-- The event document prepared by the ingestion endpoint always contains a
datetime object under the timestamp key, so it is never JSON-serializable. -/
theorem build_event_data_not_serializable (req : AuditLogRequest) (nowT : Nat) :
    jsonSerializable (build_event_data req nowT) = false := by
  simp [build_event_data, jsonSerializable, serializableEntries, Bool.and_false]

/-- Every ingestion call fails (the TypeError from json.dumps is caught by
the blanket except and surfaced as HTTP 500) and leaves the chain state
untouched. -/
theorem log_audit_event_always_fails (env : IngestEnv) (req : AuditLogRequest)
    (nowT : Nat) (st : ChainState) :
    (log_audit_event env req nowT st).1.isOk = false ∧
    (log_audit_event env req nowT st).2 = st := by
  have hser := build_event_data_not_serializable req nowT
  have hOk := compute_event_hash_isOk (build_event_data req nowT) st.last_hash
  rw [hser] at hOk
  simp only [log_audit_event]
  cases hc : compute_event_hash (build_event_data req nowT) st.last_hash with
  | error e => exact ⟨rfl, rfl⟩
  | ok current => rw [hc, except_isOk_ok] at hOk; simp at hOk

/-- C1: starting from an empty ledger, after any sequence of ingestion calls
processed one at a time the stored events form a strictly linear chain:
event[0].integrity.previousHash is the genesis sentinel "genesis" and for all
i > 0 in insertion order event[i].integrity.previousHash equals
event[i-1].integrity.hash. -/
theorem chain_integrity_of_sequential_ingestion :
    ∀ calls : List (IngestEnv × AuditLogRequest × Nat),
      chainOk (run_ingestion calls initialChainState).ledger = true := by
  intro calls
  exact (run_ingestion_preserves_chainInv calls initialChainState ⟨rfl, rfl⟩).1

/-- C2: compute_event_hash is partial - it returns a "sha256:"-tagged digest
string only when every value reachable in the event document is
JSON-serializable and raises a TypeError otherwise; the document built by
log_audit_event always holds a datetime under the timestamp key, so every
ingestion request takes the exception path: the endpoint fails and the chain
state is unchanged. -/
theorem compute_event_hash_partiality_and_ingestion_failure :
    (∀ (v : PyVal) (p s : String), compute_event_hash v p = .ok s →
        jsonSerializable v = true ∧ ∃ t, s = "sha256:" ++ t) ∧
    (∀ (v : PyVal) (p : String), jsonSerializable v = false →
        ∃ e, compute_event_hash v p = .error e) ∧
    (∀ (req : AuditLogRequest) (nowT : Nat),
        jsonSerializable (build_event_data req nowT) = false) ∧
    (∀ (env : IngestEnv) (req : AuditLogRequest) (nowT : Nat) (st : ChainState),
        (log_audit_event env req nowT st).1.isOk = false ∧
        (log_audit_event env req nowT st).2 = st) := by
  refine ⟨?_, ?_, build_event_data_not_serializable, log_audit_event_always_fails⟩
  · intro v p s h
    unfold compute_event_hash at h
    cases hd : json_dumps v with
    | error e => rw [hd] at h; cases h
    | ok str =>
        rw [hd] at h
        have hs := json_dumps_isOk v
        rw [hd, except_isOk_ok] at hs
        refine ⟨hs.symm, sha256hex (str ++ p), ?_⟩
        injection h with h'
        exact h'.symm
  · intro v p h
    have hs := json_dumps_isOk v
    rw [h] at hs
    cases hd : json_dumps v with
    | error e =>
        refine ⟨e, ?_⟩
        unfold compute_event_hash
        rw [hd]
    | ok s => rw [hd, except_isOk_ok] at hs; simp at hs

/-- Witness for C2: the hash computation succeeds on a serializable document
with a "sha256:"-tagged result, and fails on a datetime-bearing document. -/
theorem compute_event_hash_partiality_witness :
    (compute_event_hash (.pyStr "a") "genesis" =
        .ok ("sha256:" ++ sha256hex ("\"a\"" ++ "genesis")) ∧
      (jsonSerializable (.pyStr "a") = true ∧
        ∃ t, ("sha256:" ++ sha256hex ("\"a\"" ++ "genesis")) = "sha256:" ++ t)) ∧
    (jsonSerializable (.pyDatetime 0) = false ∧
      ∃ e, compute_event_hash (.pyDatetime 0) "genesis" = .error e) :=
  ⟨⟨rfl, compute_event_hash_partiality_and_ingestion_failure.1 (.pyStr "a") "genesis"
      ("sha256:" ++ sha256hex ("\"a\"" ++ "genesis")) rfl⟩,
   ⟨rfl, compute_event_hash_partiality_and_ingestion_failure.2.1 (.pyDatetime 0) "genesis" rfl⟩⟩

/-- C4 (the code diverges): on the accepted path the response's
integrity.previousHash is read from the global last_hash after line 181 has
advanced it, so the receipt reports previousHash equal to the newly computed
hash, while the durably stored event carries the chain tip in effect before
the event ("genesis" here) as its previous_hash. -/
theorem receipt_previous_hash_is_new_hash :
    (append_and_respond ⟨true, false⟩ 3 samplePayload "sha256:h1" initialChainState).1 =
      .ok { auditId := "audit_3", eventId := "evt_3", logged := true,
            integrity := { hash := "sha256:h1", previousHash := "sha256:h1" } } ∧
    ((append_and_respond ⟨true, false⟩ 3 samplePayload "sha256:h1" initialChainState).2.ledger.map
        (fun e => e.previous_hash)) = ["genesis"] ∧
    (("sha256:h1" : String) == "genesis") = false :=
  ⟨rfl, rfl, by decide⟩

/-- C5 (the code diverges): with the store unreachable at startup the caught
exception is only logged - the in-memory tip stays "genesis" although the
store holds a prior event, no fail-closed state exists, a submit in that
state is rejected only by the unrelated serialization TypeError, and the
append stage (were it reached) accepts an event chaining from "genesis",
producing a ledger that violates chain integrity. -/
theorem startup_unreachable_store_not_fail_closed :
    startup_last_hash (.unreachable [priorEvent]) = "genesis" ∧
    (startup_state (.unreachable [priorEvent])).ledger = [priorEvent] ∧
    (log_audit_event ⟨true, false⟩ sampleRequest 7 (startup_state (.unreachable [priorEvent]))).1 =
      .error { status_code := 500,
               detail := "Audit logging failed: Object of type datetime is not JSON serializable" } ∧
    (append_and_respond ⟨true, false⟩ 7 samplePayload "sha256:bbb"
        (startup_state (.unreachable [priorEvent]))).1.isOk = true ∧
    chainOk (append_and_respond ⟨true, false⟩ 7 samplePayload "sha256:bbb"
        (startup_state (.unreachable [priorEvent]))).2.ledger = false :=
  ⟨rfl, rfl, rfl, rfl, rfl⟩

/-- C6 counterexample: a request whose actor.userId and actor.username are
both empty strings passes schema validation instead of being rejected. -/
theorem empty_actor_passes_validation :
    emptyActorRaw.actor.userId = "" ∧ emptyActorRaw.actor.username = "" ∧
    (validate_audit_log_request emptyActorRaw).isOk = true :=
  ⟨rfl, rfl, rfl⟩

/-- C6 amended: validation accepts a request exactly when eventType, action
and outcome are members of their closed enumerations; the emptiness of
actor.userId and actor.username is never checked, as the accepted
empty-actor request shows. -/
theorem validation_rejects_only_out_of_enum_fields :
    (∀ r : RawAuditLogRequest,
        (validate_audit_log_request r).isOk =
          ((AuditEventType.parse r.eventType).isSome &&
           (AuditAction.parse r.action).isSome &&
           (AuditOutcome.parse r.outcome).isSome)) ∧
    (validate_audit_log_request emptyActorRaw).isOk = true := by
  refine ⟨?_, rfl⟩
  intro r
  unfold validate_audit_log_request
  cases AuditEventType.parse r.eventType <;>
    cases AuditAction.parse r.action <;>
      cases AuditOutcome.parse r.outcome <;> rfl

/-- C7 counterexample: with the store reachable and the stream producer
disconnected, the health endpoint reports overall status "healthy" (with
kafka marked "disconnected"), not "degraded". -/
theorem health_store_up_stream_down_reports_healthy :
    health_check true (some false) =
      { status := "healthy", mongodb := "connected", kafka := some "disconnected" } ∧
    ((health_check true (some false)).status == "degraded") = false :=
  ⟨rfl, by decide⟩

/-- C7 amended: the overall status is "healthy" exactly when the store is
reachable (and "unhealthy" otherwise); stream connectivity is reported
independently in the kafka field and never changes the overall status - in
particular "degraded" is never reported. -/
theorem health_status_depends_only_on_store :
    ∀ (mongoUp : Bool) (kafkaConnected : Option Bool),
      ((health_check mongoUp kafkaConnected).status == "healthy") = mongoUp ∧
      ((health_check mongoUp kafkaConnected).status == "degraded") = false ∧
      (health_check true (some false)).kafka = some "disconnected" := by
  intro m k
  cases m <;> refine ⟨rfl, ?_, rfl⟩ <;> simp only [health_check] <;> decide

/-- C8: if the durable append fails the ingestion call returns a failure and
no receipt, and the ledger and chain tip are left exactly as the failed
attempt observed them (so a later accepted event would be hashed against the
same previousHash); more generally every failing ingestion call leaves the
chain state unchanged. -/
theorem append_failure_leaves_state_unchanged (env : IngestEnv)
    (req : AuditLogRequest) (nowT : Nat) (event_data : PyVal)
    (current_hash : String) (st : ChainState) (hfail : env.insertOk = false) :
    append_and_respond env nowT event_data current_hash st =
      (.error { status_code := 500, detail := "Audit logging failed: insert failed" }, st) ∧
    (log_audit_event env req nowT st).1.isOk = false ∧
    (log_audit_event env req nowT st).2 = st := by
  refine ⟨?_, log_audit_event_always_fails env req nowT st⟩
  unfold append_and_respond
  rw [hfail]
  simp

/-- Witness for C8 at a concrete failing append. -/
theorem append_failure_witness :
    (IngestEnv.mk false false).insertOk = false ∧
    (append_and_respond ⟨false, false⟩ 3 samplePayload "sha256:h1" initialChainState =
        (.error { status_code := 500, detail := "Audit logging failed: insert failed" },
         initialChainState) ∧
      (log_audit_event ⟨false, false⟩ sampleRequest 3 initialChainState).1.isOk = false ∧
      (log_audit_event ⟨false, false⟩ sampleRequest 3 initialChainState).2 = initialChainState) :=
  ⟨rfl, append_failure_leaves_state_unchanged ⟨false, false⟩ sampleRequest 3 samplePayload
      "sha256:h1" initialChainState rfl⟩

/-- C9 counterexample: a query whose start_date filter is malformed fails
with an HTTP 500 QueryError instead of returning an empty result set. -/
theorem malformed_date_query_fails :
    query_audit_logs [] badDateParams =
      .error { status_code := 500,
               detail := "Query failed: Invalid isoformat string: not-a-date" } ∧
    (query_audit_logs [] badDateParams).isOk = false :=
  ⟨rfl, rfl⟩

/-- C9 amended: a malformed startDate or endDate filter makes the query call
fail with an HTTP 500 QueryError surfaced to the caller; no (empty) result
set is returned.  The first part covers a malformed start_date (parsed first
by the code, so the end_date is irrelevant there); the second covers a
malformed end_date when the start_date is absent or well-formed. -/
theorem malformed_date_filter_query_errors :
    (∀ (ledger : List StoredEvent) (p : AuditQueryParams) (s : String),
        p.start_date = some s → parseDateFilter s = none →
        query_audit_logs ledger p =
          .error { status_code := 500,
                   detail := "Query failed: Invalid isoformat string: " ++ s }) ∧
    (∀ (ledger : List StoredEvent) (p : AuditQueryParams) (s : String),
        (p.start_date = none ∨
          ∃ s0 d0, p.start_date = some s0 ∧ parseDateFilter s0 = some d0) →
        p.end_date = some s → parseDateFilter s = none →
        query_audit_logs ledger p =
          .error { status_code := 500,
                   detail := "Query failed: Invalid isoformat string: " ++ s }) := by
  constructor
  · intro ledger p s h1 h2
    simp only [query_audit_logs, h1, h2]
  · intro ledger p s hstart hend hbad
    cases hstart with
    | inl hnone =>
        simp only [query_audit_logs, hnone, query_audit_logs_after, hend, hbad]
    | inr hsome =>
        obtain ⟨s0, d0, hs0, hd0⟩ := hsome
        simp only [query_audit_logs, hs0, hd0, query_audit_logs_after, hend, hbad]

/-- Witness for C9 amended: a concrete malformed start_date filter, and a
concrete query whose only malformed filter is the end_date. -/
theorem malformed_date_filter_query_errors_witness :
    (badDateParams.start_date = some "not-a-date" ∧
      parseDateFilter "not-a-date" = none ∧
      query_audit_logs [] badDateParams =
        .error { status_code := 500,
                 detail := "Query failed: Invalid isoformat string: " ++ "not-a-date" }) ∧
    ((badEndDateParams.start_date = none ∨
        ∃ s0 d0, badEndDateParams.start_date = some s0 ∧ parseDateFilter s0 = some d0) ∧
      badEndDateParams.end_date = some "not-a-date" ∧
      parseDateFilter "not-a-date" = none ∧
      query_audit_logs [] badEndDateParams =
        .error { status_code := 500,
                 detail := "Query failed: Invalid isoformat string: " ++ "not-a-date" }) :=
  ⟨⟨rfl, rfl, malformed_date_filter_query_errors.1 [] badDateParams "not-a-date" rfl rfl⟩,
   ⟨Or.inr ⟨"2024-01-15", 20240115, rfl, rfl⟩, rfl, rfl,
    malformed_date_filter_query_errors.2 [] badEndDateParams "not-a-date"
      (Or.inr ⟨"2024-01-15", 20240115, rfl, rfl⟩) rfl rfl⟩⟩

/-- C10 (the code crashes instead): actor U1 has events from four distinct
IP addresses inside the trailing window, but the scanner's final match stage
passes an operator document as the $size operand, which the server rejects
while parsing the pipeline, so the scan raises and returns no
MULTIPLE_IP_ADDRESSES finding for any actor. -/
theorem multi_ip_scan_raises_on_size_operand :
    addToSet ((multiIpDocs.filter (fun d => d.user_id == "U1")).map
        (fun d => d.ip_address)) =
      [some "10.0.0.1", some "10.0.0.2", some "10.0.0.3", some "10.0.0.4"] ∧
    detect_suspicious_activity multiIpDocs 1000 =
      .error "Failed to parse $size. Expected a number" :=
  ⟨rfl, rfl⟩
